import Mathlib

/-!
Verification development for the Slack MCP server repository.

The definitions below are a shallow embedding of the repository's Python
source:

* `slack_oauth_callback` embeds `app/oauth/slack.py::slack_oauth_callback`
  (the OAuth `complete_link` step).  The database session is modelled as an
  explicit `DB` value threaded through the function; `db.commit()` is
  modelled by returning the mutated `DB`, and a branch that raises before
  any commit returns the input `DB` unchanged.  The external token-exchange
  HTTP call (`httpx.Client.post` to `oauth.v2.access`) is modelled by
  passing the provider's decoded JSON response as an explicit
  `TokenExchangeResponse` argument.
* `wsHandleMessage` embeds the per-message dispatch of
  `app/mcp/websocket_server.py::slack_mcp_websocket` (the body of the
  `while True` receive loop).  Outbound `websocket.send_json` frames are
  collected in a list; the Slack network call a tool may make is modelled
  by an explicit `SlackOutcome` argument.
* `call_tool` and the `handle_*` helpers embed `app/mcp/server.py`.
* Time (`datetime.utcnow()`) is modelled as a `Nat` instant; Python
  truthiness of optional strings is modelled by `pyFalsyOptStr`.
-/

/-- Python truthiness test for an `Optional[str]` value: `None` and the
empty string are falsy (`if not x:` in the source). -/
def pyFalsyOptStr : Option String → Bool
  | none => true
  | some s => s == ""

/-- Python `str(x)` for an `Optional[str]` as used in f-strings:
`None` renders as `"None"`. -/
def pyStr : Option String → String
  | none => "None"
  | some s => s

/-- Python `x or ""` for an `Optional[str]` (used for
`session_token or ''` in the websocket server). -/
def pyOrEmpty (x : Option String) : String :=
  x.getD ""

/-- Row of the `oauth_states` table (`app/models.py::OAuthState`).
Timestamps are `Nat` instants. -/
structure OAuthState where
  provider : String
  state : String
  user_id : Nat
  used : Bool
  created_at : Nat
  expires_at : Nat
  deriving DecidableEq

/-- Row of the `slack_connections` table (`app/models.py::SlackConnection`).
Nullable columns are `Option`s. -/
structure SlackConnection where
  user_id : Nat
  slack_team_id : String
  slack_team_name : Option String
  bot_access_token : Option String
  scope : Option String
  authed_user_id : Option String
  status : String
  installed_at : Nat
  updated_at : Nat
  deriving DecidableEq

/-- The relational store visible to the core: the two tables the claims
are about. -/
structure DB where
  oauth_states : List OAuthState
  slack_connections : List SlackConnection
  deriving DecidableEq

/-- The decoded JSON body returned by Slack's `oauth.v2.access` endpoint,
as the callback reads it (`resp_data.get(...)` accesses).  `team_id` and
`team_name` are the fields of the nested `team` object; `authed_user_id`
is the `id` field of the nested `authed_user` object. -/
structure TokenExchangeResponse where
  ok : Bool := false
  error : Option String := none
  access_token : Option String := none
  scope : Option String := none
  team_id : Option String := none
  team_name : Option String := none
  authed_user_id : Option String := none
  deriving DecidableEq

/-- Outcome of one request to the `/oauth/slack/callback` route.
`httpError s d` models `raise HTTPException(status_code = s, detail = d)`.
`typeError` models the branch at `app/oauth/slack.py:159-162`, which calls
`HTTPException(status_code = 400, details = ...)`: FastAPI's
`HTTPException.__init__` has no `details` keyword (the parameter is named
`detail`), so constructing it raises a Python `TypeError` that escapes the
route handler unhandled.  `success m` models the normal JSON return
`{"success": True, "message": m}`. -/
inductive CallbackResult where
  | httpError (statusCode : Nat) (detail : String)
  | typeError
  | success (message : String)
  deriving DecidableEq

/-- The filter used to look up the OAuth state row:
`OAuthState.provider == "slack", OAuthState.state == state`. -/
def stateMatches (tok : String) (s : OAuthState) : Bool :=
  s.provider == "slack" && s.state == tok

/-- Models `st.used = True` on the row returned by `.first()` for the
state-lookup query: the first matching row is replaced by a copy with
`used := true`. -/
def setUsedFirst : List OAuthState → String → List OAuthState
  | [], _ => []
  | s :: rest, tok =>
    if stateMatches tok s then { s with used := true } :: rest
    else s :: setUsedFirst rest tok

/-- The freshly inserted `SlackConnection` of the callback's `else` branch
(`app/oauth/slack.py:180-189`); `status` defaults to `"active"` and the
timestamp columns default to the current instant. -/
def newConnection (uid : Nat) (tid : String) (tname : Option String)
    (tok : String) (sc : String) (auid : Option String) (now : Nat) :
    SlackConnection :=
  { user_id := uid
    slack_team_id := tid
    slack_team_name := tname
    bot_access_token := some tok
    scope := some sc
    authed_user_id := auid
    status := "active"
    installed_at := now
    updated_at := now }

/-- The in-place update of the callback's `if existing:` branch
(`app/oauth/slack.py:173-178`); `updated_at` is refreshed by the column's
`onupdate` hook. -/
def updateConnection (c : SlackConnection) (tname : Option String)
    (tok : String) (sc : String) (auid : Option String) (now : Nat) :
    SlackConnection :=
  { c with
    bot_access_token := some tok
    scope := some sc
    authed_user_id := auid
    status := "active"
    slack_team_name := tname
    updated_at := now }

/-- The filter of the existing-connection query:
`SlackConnection.user_id == user_id, SlackConnection.slack_team_id == team_id`. -/
def pairMatch (uid : Nat) (tid : String) (c : SlackConnection) : Bool :=
  c.user_id == uid && c.slack_team_id == tid

/-- Store-or-update of the callback (`app/oauth/slack.py:164-189`): the
first row matching `(user_id, slack_team_id)` is updated in place,
otherwise a new row is appended. -/
def upsertConnection : List SlackConnection → Nat → String → Option String →
    String → String → Option String → Nat → List SlackConnection
  | [], uid, tid, tname, tok, sc, auid, now =>
    [newConnection uid tid tname tok sc auid now]
  | c :: rest, uid, tid, tname, tok, sc, auid, now =>
    if pairMatch uid tid c then updateConnection c tname tok sc auid now :: rest
    else c :: upsertConnection rest uid tid tname tok sc auid now

/-- Shallow embedding of `app/oauth/slack.py::slack_oauth_callback`.
`now` is the value of `datetime.utcnow()`, `ex` the provider's decoded
token-exchange response (consulted only on the exchange branch).  Returns
the HTTP-level outcome together with the database state after the request
(changed only where the source reaches `db.commit()` — note that the
denial branch commits `used = True`, while every later failure branch
raises before any commit). -/
def slack_oauth_callback (db : DB) (now : Nat)
    (code state error : Option String) (ex : TokenExchangeResponse) :
    CallbackResult × DB :=
  if pyFalsyOptStr state then
    (.httpError 400 "Invalid or missing state", db)
  else
    match db.oauth_states.find? (stateMatches (state.getD "")) with
    | none => (.httpError 400 "Invalid or expired state", db)
    | some st =>
      if st.used then (.httpError 400 "State already used", db)
      else if st.expires_at < now then (.httpError 400 "State expired", db)
      else if !(pyFalsyOptStr error) then
        (.httpError 400 ("OAuth error: " ++ error.getD ""),
         { db with oauth_states := setUsedFirst db.oauth_states (state.getD "") })
      else if pyFalsyOptStr code then
        (.httpError 400 "Missing code from Slack", db)
      else if !ex.ok then
        (.httpError 400
          ("Slack OAuth token exchange failed: " ++ ex.error.getD "unknown_error"), db)
      else if pyFalsyOptStr ex.access_token || pyFalsyOptStr ex.team_id then
        (.typeError, db)
      else
        (.success "Slack connected successfully",
         { oauth_states := setUsedFirst db.oauth_states (state.getD "")
           slack_connections :=
             upsertConnection db.slack_connections st.user_id
               (ex.team_id.getD "") ex.team_name (ex.access_token.getD "")
               (ex.scope.getD "") ex.authed_user_id now })

/-! ### Protocol engine: websocket transport

Embedding of the per-message dispatch of
`app/mcp/websocket_server.py::slack_mcp_websocket`. -/

/-- `params.get("arguments") or {}` restricted to the argument keys the
tool handlers read; an absent key is `none`. -/
structure ToolArgs where
  limit : Option Int := none
  include_private : Option Bool := none
  channel_id : Option String := none
  text : Option String := none
  thread_ts : Option String := none
  deriving DecidableEq

/-- One entry of the `channels` array of a Slack `conversations.list`
response, restricted to the keys the handlers read. -/
structure Channel where
  id : Option String := none
  name : Option String := none
  is_private : Option Bool := none
  num_members : Option Int := none
  deriving DecidableEq

/-- A successful (`ok == true`) Slack API response body, restricted to the
keys the handlers read (`channels`, `response_metadata.next_cursor`,
`channel`, `ts`, `messages`). -/
structure SlackResp where
  channels : List Channel := []
  next_cursor : Option String := none
  channel : Option String := none
  ts : Option String := none
  messages : List (Option String × Option String) := []
  deriving DecidableEq

/-- Outcome of the one Slack web-API call a tool invocation makes:
either a decoded `ok` response, or an exception raised by
`SlackClient._request` (e.g. `SlackApiError` for an `ok == false` body,
or an `httpx` transport error); `raised e` carries `str(e)`. -/
inductive SlackOutcome where
  | resp (r : SlackResp)
  | raised (e : String)
  deriving DecidableEq

/-- A channel entry as normalized by the legacy `tools.call` path
(`websocket_server.py:348-356`). -/
structure LegacyChannel where
  id : Option String
  name : Option String
  is_private : Option Bool
  member_count : Option Int
  deriving DecidableEq

/-- The `result` payload of an outbound frame; one constructor per
`send_json` result shape in `slack_mcp_websocket`.  `toolResult texts e`
is `{"content": [{"type": "text", "text": t} for t in texts],
"isError": e}` where a missing `"isError"` key is modelled as `false`. -/
inductive Payload where
  | initResult
  | toolsListing (toolNames : List String)
  | toolResult (texts : List String) (isErrorFlag : Bool)
  | legacyChannels (channels : List LegacyChannel) (next_cursor : Option String)
  | legacySend (channel : Option String) (message_ts : Option String)
  deriving DecidableEq

/-- An outbound JSON-RPC frame (`websocket.send_json` argument):
either `{"jsonrpc": "2.0", "id": id, "result": ...}` or
`{"jsonrpc": "2.0", "id": id, "error": {"code": c, "message": m}}`.
The `id` correlator is opaque; absence (`null`) is `none`. -/
inductive Frame where
  | res (id : Option String) (payload : Payload)
  | err (id : Option String) (code : Int) (message : String)
  deriving DecidableEq

/-- Discriminates a protocol-level JSON-RPC error object (an `"error"`
member) from a result frame. -/
def Frame.isJsonRpcError : Frame → Bool
  | .err _ _ _ => true
  | .res _ _ => false

/-- What message handling produced: the frames sent for this inbound
message, and whether an exception escaped the handling (terminating the
connection task). -/
structure HandlerOut where
  frames : List Frame
  crashed : Bool
  deriving DecidableEq

/-- An inbound `RpcMessage` as the websocket loop reads it:
`id = message.get("id")`, `method = message.get("method")`,
`name = params.get("name")`, `arguments = params.get("arguments") or {}`. -/
structure RpcMessage where
  id : Option String := none
  method : Option String := none
  name : Option String := none
  arguments : ToolArgs := {}
  deriving DecidableEq

/-- The names of the `TOOLS` catalog literal of
`app/mcp/websocket_server.py:21-61` (the schemas are not consulted by any
claim). -/
def TOOLS_names : List String := ["list_channels", "send_message"]

/-- `_connect_url_for_user` of `app/mcp/websocket_server.py:16-17`: the
link-start URL embedding the caller's session token. -/
def connect_url_for_user (session_token : String) : String :=
  "https://slack-mcp-server-6809.onrender.com/oauth/slack/start?session_token="
    ++ session_token

/-- The filter of the active-connection query
(`SlackConnection.user_id == user_id, SlackConnection.status == "active"`). -/
def activeConnsFor (conns : List SlackConnection) (uid : Nat) :
    List SlackConnection :=
  conns.filter (fun c => c.user_id == uid && c.status == "active")

/-- Models `.order_by(SlackConnection.installed_at.desc()).first()`: the
first row among those with maximal `installed_at` (a stable descending
sort puts the earliest-listed row first among ties). -/
def pickLatest : List SlackConnection → Option SlackConnection
  | [] => none
  | c :: rest =>
    match pickLatest rest with
    | none => some c
    | some d => if c.installed_at < d.installed_at then some d else some c

/-- The connection resolved for a tool invocation: filter on
`(user_id, status == "active")`, order by `installed_at` descending,
take the first row. -/
def pickActive (conns : List SlackConnection) (uid : Nat) :
    Option SlackConnection :=
  pickLatest (activeConnsFor conns uid)

/-- The guard `if not conn or not conn.bot_access_token:` of the
tool-invocation paths. -/
def connMissingToken : Option SlackConnection → Bool
  | none => true
  | some c => pyFalsyOptStr c.bot_access_token

/-- Whether the identity holds an active Credential in the sense of the
spec: some `SlackConnection` row with `status == "active"` and a
non-empty bot access token. -/
def hasActiveCredential (conns : List SlackConnection) (uid : Nat) : Bool :=
  conns.any (fun c =>
    c.user_id == uid && c.status == "active" && !pyFalsyOptStr c.bot_access_token)

/-- Store invariant: every `status == "active"` row carries a non-empty
bot access token.  It holds of every row the callback ever writes, since
the upsert stores the exchange's access token only after the
non-falsy check on it. -/
def activeTokensOk (conns : List SlackConnection) : Bool :=
  conns.all (fun c => c.status != "active" || !pyFalsyOptStr c.bot_access_token)

/-- The `tools/call` branch of `slack_mcp_websocket`
(`websocket_server.py:132-290`).  `outcome` models the Slack call the
resolved tool would make; the per-tool `try/except` turns a raised
exception into an `isError` tool result, so this branch never crashes. -/
def wsToolsCall (user_id : Nat) (session_token : Option String)
    (conns : List SlackConnection) (outcome : SlackOutcome)
    (msg_id : Option String) (tool_name : Option String) (args : ToolArgs) :
    HandlerOut :=
  if connMissingToken (pickActive conns user_id) then
    ⟨[.res msg_id (.toolResult
        ["Slack not connected. Please connect Slack first: "
          ++ connect_url_for_user (pyOrEmpty session_token)] true)], false⟩
  else if tool_name == some "list_channels" then
    match outcome with
    | .resp r =>
      let channel_list := String.intercalate "\n"
        (r.channels.map (fun ch =>
          "• #" ++ pyStr ch.name ++ " (ID: " ++ pyStr ch.id ++ ")"))
      ⟨[.res msg_id (.toolResult
          ["Found " ++ toString r.channels.length ++ " channels:\n" ++ channel_list]
          false)], false⟩
    | .raised e =>
      ⟨[.res msg_id (.toolResult ["Error listing channels: " ++ e] true)], false⟩
  else if tool_name == some "send_message" then
    if pyFalsyOptStr args.channel_id || pyFalsyOptStr args.text then
      ⟨[.res msg_id (.toolResult
          ["Error: Missing required fields 'channel_id' and 'text'"] true)], false⟩
    else
      match outcome with
      | .resp _ =>
        ⟨[.res msg_id (.toolResult
            ["Message sent successfully to channel " ++ pyStr args.channel_id]
            false)], false⟩
      | .raised e =>
        ⟨[.res msg_id (.toolResult ["Error sending message: " ++ e] true)], false⟩
  else
    ⟨[.res msg_id (.toolResult ["Unknown tool: " ++ pyStr tool_name] true)], false⟩

/-- The legacy `tools.call` branch (`websocket_server.py:308-382`).  A
missing connection answers with a JSON-RPC error object; the tool calls
are not wrapped in `try/except`, so a raised Slack exception escapes the
loop (`crashed := true`); an unrecognized tool name falls through with no
frame at all. -/
def wsToolsCallLegacy (user_id : Nat) (conns : List SlackConnection)
    (outcome : SlackOutcome) (msg_id : Option String)
    (tool_name : Option String) (_args : ToolArgs) : HandlerOut :=
  if connMissingToken (pickActive conns user_id) then
    ⟨[.err msg_id (-32000) "Slack not connected."], false⟩
  else if tool_name == some "list_channels" then
    match outcome with
    | .resp r =>
      ⟨[.res msg_id (.legacyChannels
          (r.channels.map (fun ch =>
            ⟨ch.id, ch.name, ch.is_private, ch.num_members⟩))
          r.next_cursor)], false⟩
    | .raised _ => ⟨[], true⟩
  else if tool_name == some "send_message" then
    match outcome with
    | .resp r => ⟨[.res msg_id (.legacySend r.channel r.ts)], false⟩
    | .raised _ => ⟨[], true⟩
  else
    ⟨[], false⟩

/-- One iteration of the receive loop of `slack_mcp_websocket`
(`websocket_server.py:81-394`): the method dispatch chain, in source
order.  The `arguments` of `args` are only consulted by the tool
branches. -/
def wsHandleMessage (user_id : Nat) (session_token : Option String)
    (conns : List SlackConnection) (outcome : SlackOutcome)
    (msg : RpcMessage) : HandlerOut :=
  if msg.method == some "initialize" then
    ⟨[.res msg.id .initResult], false⟩
  else if msg.method == some "notifications/initialized"
      || msg.method == some "initialized" then
    ⟨[], false⟩
  else if msg.method == some "tools/list" then
    ⟨[.res msg.id (.toolsListing TOOLS_names)], false⟩
  else if msg.method == some "tools/call" then
    wsToolsCall user_id session_token conns outcome msg.id msg.name msg.arguments
  else if msg.method == some "tools.list" then
    ⟨[.res msg.id (.toolsListing TOOLS_names)], false⟩
  else if msg.method == some "tools.call" then
    wsToolsCallLegacy user_id conns outcome msg.id msg.name msg.arguments
  else
    ⟨[.err msg.id (-32601) ("Unknown method: " ++ pyStr msg.method)], false⟩

/-! ### Protocol engine: SDK server (`app/mcp/server.py`) -/

/-- `get_slack_client_for_user` (`server.py:98-115`), returning the bot
access token the `SlackClient` would be built with, or `none`. -/
def get_slack_client_for_user (conns : List SlackConnection) (uid : Nat) :
    Option String :=
  match pickActive conns uid with
  | some c => if !pyFalsyOptStr c.bot_access_token then c.bot_access_token else none
  | none => none

/-- `handle_list_channels` (`server.py:147-166`); `Except.error e` models
an exception with `str(e) = e` propagating to `call_tool`. -/
def handle_list_channels (outcome : SlackOutcome) (_args : ToolArgs) :
    Except String (List String) :=
  match outcome with
  | .raised e => .error e
  | .resp r =>
    if r.channels.isEmpty then .ok ["No channels found in the workspace."]
    else
      let channel_list := String.intercalate "\n"
        (r.channels.map (fun ch =>
          "• #" ++ pyStr ch.name ++ " (ID: " ++ pyStr ch.id ++ ") - "
            ++ toString (ch.num_members.getD 0) ++ " members"))
      .ok ["Found " ++ toString r.channels.length ++ " channels:\n\n" ++ channel_list]

/-- `handle_send_message` (`server.py:169-187`): the argument check
precedes the Slack call. -/
def handle_send_message (outcome : SlackOutcome) (args : ToolArgs) :
    Except String (List String) :=
  if pyFalsyOptStr args.channel_id || pyFalsyOptStr args.text then
    .ok ["Error: channel_id and text are required"]
  else
    match outcome with
    | .raised e => .error e
    | .resp _ =>
      .ok ["✓ Message sent successfully to channel " ++ pyStr args.channel_id]

/-- The limit `handle_fetch_history` computes
(`server.py:193`): `min(arguments.get("limit", 10), 100)`. -/
def handle_fetch_history_limit (args : ToolArgs) : Int :=
  min (args.limit.getD 10) 100

/-- The `limit` entry of the request data `SlackClient.fetch_history`
sends to the provider (`app/slack/client.py:130`): `min(limit, 100)`. -/
def fetch_history_request_limit (limit : Int) : Int :=
  min limit 100

/-- The limit an MCP `fetch_history` invocation causes to be sent to the
provider: `handle_fetch_history` clamps, then `SlackClient.fetch_history`
clamps the value it receives again. -/
def mcp_fetch_history_provider_limit (args : ToolArgs) : Int :=
  fetch_history_request_limit (handle_fetch_history_limit args)

/-- `handle_fetch_history` (`server.py:190-216`), with message formatting
restricted to the `(user, text)` fields the source reads. -/
def handle_fetch_history (outcome : SlackOutcome) (args : ToolArgs) :
    Except String (List String) :=
  if pyFalsyOptStr args.channel_id then
    .ok ["Error: channel_id is required"]
  else
    match outcome with
    | .raised e => .error e
    | .resp r =>
      if r.messages.isEmpty then
        .ok ["No messages found in channel " ++ pyStr args.channel_id]
      else
        let formatted := String.intercalate "\n\n"
          (r.messages.map (fun m =>
            "[" ++ (m.1.getD "Unknown") ++ "]: " ++ (m.2.getD "")))
        .ok ["Last " ++ toString r.messages.length ++ " messages from "
              ++ pyStr args.channel_id ++ ":\n\n" ++ formatted]

/-- `call_tool` (`server.py:118-144`): resolves the user context and the
active credential, dispatches on the tool name, and catches every
exception of the tool handlers, rendering it as tool-scoped error text.
Returns the texts of the `TextContent` list. -/
def call_tool (user_id : Option Nat) (conns : List SlackConnection)
    (outcome : SlackOutcome) (name : String) (args : ToolArgs) : List String :=
  match user_id with
  | none => ["Error: No user context available. Please reconnect."]
  | some uid =>
    match get_slack_client_for_user conns uid with
    | none => ["Slack not connected. Please connect your Slack workspace first."]
    | some _ =>
      let r : Except String (List String) :=
        if name == "list_channels" then handle_list_channels outcome args
        else if name == "send_message" then handle_send_message outcome args
        else if name == "fetch_history" then handle_fetch_history outcome args
        else .ok ["Unknown tool: " ++ name]
      match r with
      | .ok texts => texts
      | .error e => ["Error executing " ++ name ++ ": " ++ e]

/-! ### Helper lemmas -/

theorem pickLatest_mem {l : List SlackConnection} {c : SlackConnection}
    (h : pickLatest l = some c) : c ∈ l := by
  induction l with
  | nil => simp [pickLatest] at h
  | cons a t ih =>
    simp only [pickLatest] at h
    cases ht : pickLatest t with
    | none =>
      rw [ht] at h
      injection h with h
      exact h ▸ List.mem_cons_self a t
    | some d =>
      rw [ht] at h
      dsimp only at h
      by_cases hlt : a.installed_at < d.installed_at
      · rw [if_pos hlt] at h
        injection h with h
        rw [h] at ht
        exact List.mem_cons_of_mem a (ih ht)
      · rw [if_neg hlt] at h
        injection h with h
        exact h ▸ List.mem_cons_self a t

theorem pickLatest_isSome {l : List SlackConnection} (h : l ≠ []) :
    (pickLatest l).isSome = true := by
  cases l with
  | nil => exact absurd rfl h
  | cons a t =>
    simp only [pickLatest]
    cases pickLatest t with
    | none => rfl
    | some d =>
      dsimp only
      split <;> rfl

theorem connMissingToken_of_no_active {conns : List SlackConnection} {uid : Nat}
    (h : hasActiveCredential conns uid = false) :
    connMissingToken (pickActive conns uid) = true := by
  cases hp : pickActive conns uid with
  | none => rfl
  | some c =>
    have hmem : c ∈ activeConnsFor conns uid := pickLatest_mem hp
    have hc := List.mem_filter.mp hmem
    have hall : ∀ x ∈ conns,
        ¬(x.user_id == uid && x.status == "active"
            && !pyFalsyOptStr x.bot_access_token) = true := by
      simpa [hasActiveCredential, List.any_eq_false] using h
    have hx := hall c hc.1
    have h2 : (c.user_id == uid && c.status == "active") = true := hc.2
    simp only [connMissingToken]
    rcases Bool.eq_false_or_eq_true (pyFalsyOptStr c.bot_access_token) with hf | hf
    · exact hf
    · exact absurd (by rw [h2, hf]; rfl) hx

theorem pickActive_active_token {conns : List SlackConnection} {uid : Nat}
    (hact : hasActiveCredential conns uid = true)
    (hinv : activeTokensOk conns = true) :
    ∃ c, pickActive conns uid = some c
      ∧ pyFalsyOptStr c.bot_access_token = false := by
  have hne : activeConnsFor conns uid ≠ [] := by
    rcases List.any_eq_true.mp hact with ⟨c, hcmem, hfc⟩
    intro hnil
    have h12 : (c.user_id == uid && c.status == "active") = true := by
      rcases Bool.and_eq_true_iff.mp hfc with ⟨h12, _⟩
      exact h12
    have : c ∈ activeConnsFor conns uid := List.mem_filter.mpr ⟨hcmem, h12⟩
    rw [hnil] at this
    exact absurd this (List.not_mem_nil c)
  obtain ⟨c, hc⟩ := Option.isSome_iff_exists.mp (pickLatest_isSome hne)
  refine ⟨c, hc, ?_⟩
  have hmem : c ∈ activeConnsFor conns uid := pickLatest_mem hc
  have hsplit := List.mem_filter.mp hmem
  have hstat : (c.status == "active") = true :=
    (Bool.and_eq_true_iff.mp hsplit.2).2
  have hrow := List.all_eq_true.mp hinv c hsplit.1
  rcases Bool.or_eq_true_iff.mp hrow with hne2 | htok
  · exact absurd hstat (by simpa [bne] using hne2)
  · simpa using htok

theorem stateMatches_setUsed (tok : String) (s : OAuthState) :
    stateMatches tok { s with used := true } = stateMatches tok s := rfl

theorem find?_setUsedFirst {l : List OAuthState} {tok : String} {st : OAuthState}
    (h : l.find? (stateMatches tok) = some st) :
    (setUsedFirst l tok).find? (stateMatches tok)
      = some { st with used := true } := by
  induction l with
  | nil => simp [List.find?] at h
  | cons a t ih =>
    by_cases hm : stateMatches tok a = true
    · rw [List.find?_cons_of_pos _ hm] at h
      injection h with h
      subst h
      simp only [setUsedFirst, if_pos hm]
      exact List.find?_cons_of_pos _ (by rw [stateMatches_setUsed]; exact hm)
    · rw [List.find?_cons_of_neg _ hm] at h
      simp only [setUsedFirst, if_neg hm]
      rw [List.find?_cons_of_neg _ hm]
      exact ih h

theorem callback_valid_state (db : DB) (now : Nat)
    (code error : Option String) (stok : String)
    (ex : TokenExchangeResponse) (st : OAuthState)
    (hs : stok ≠ "")
    (hfind : db.oauth_states.find? (stateMatches stok) = some st)
    (hused : st.used = false)
    (hexp : ¬ st.expires_at < now) :
    slack_oauth_callback db now code (some stok) error ex =
      (if !(pyFalsyOptStr error) then
        (.httpError 400 ("OAuth error: " ++ error.getD ""),
         { db with oauth_states := setUsedFirst db.oauth_states stok })
      else if pyFalsyOptStr code then
        (.httpError 400 "Missing code from Slack", db)
      else if !ex.ok then
        (.httpError 400
          ("Slack OAuth token exchange failed: " ++ ex.error.getD "unknown_error"), db)
      else if pyFalsyOptStr ex.access_token || pyFalsyOptStr ex.team_id then
        (.typeError, db)
      else
        (.success "Slack connected successfully",
         { oauth_states := setUsedFirst db.oauth_states stok
           slack_connections :=
             upsertConnection db.slack_connections st.user_id
               (ex.team_id.getD "") ex.team_name (ex.access_token.getD "")
               (ex.scope.getD "") ex.authed_user_id now })) := by
  unfold slack_oauth_callback
  have h1 : pyFalsyOptStr (some stok) = false := by
    simp [pyFalsyOptStr, hs]
  rw [h1]
  simp only [Bool.false_eq_true, if_false, Option.getD_some]
  rw [hfind]
  simp only [hused, Bool.false_eq_true, if_false, if_neg hexp]

theorem callback_used_state (db : DB) (now : Nat)
    (code error : Option String) (stok : String)
    (ex : TokenExchangeResponse) (st : OAuthState)
    (hs : stok ≠ "")
    (hfind : db.oauth_states.find? (stateMatches stok) = some st)
    (hused : st.used = true) :
    slack_oauth_callback db now code (some stok) error ex
      = (.httpError 400 "State already used", db) := by
  unfold slack_oauth_callback
  have h1 : pyFalsyOptStr (some stok) = false := by
    simp [pyFalsyOptStr, hs]
  rw [h1]
  simp only [Bool.false_eq_true, if_false, Option.getD_some]
  rw [hfind]
  simp only [hused, if_true]

theorem countP_upsert_eq_one (conns : List SlackConnection) (uid : Nat)
    (tid : String) (tname : Option String) (tok sc : String)
    (auid : Option String) (now : Nat)
    (h : conns.countP (pairMatch uid tid) ≤ 1) :
    (upsertConnection conns uid tid tname tok sc auid now).countP
      (pairMatch uid tid) = 1 := by
  induction conns with
  | nil =>
    simp [upsertConnection, List.countP_cons, newConnection, pairMatch]
  | cons c rest ih =>
    by_cases hm : pairMatch uid tid c = true
    · have hrest : rest.countP (pairMatch uid tid) = 0 := by
        rw [List.countP_cons, if_pos hm] at h
        omega
      have hupd : pairMatch uid tid (updateConnection c tname tok sc auid now)
          = pairMatch uid tid c := rfl
      simp [upsertConnection, if_pos hm, List.countP_cons, hrest, hupd, hm]
    · have hrest : rest.countP (pairMatch uid tid) ≤ 1 := by
        rw [List.countP_cons, if_neg hm] at h
        omega
      simp [upsertConnection, if_neg hm, List.countP_cons, ih hrest, hm]

theorem upsert_pair_active (conns : List SlackConnection) (uid : Nat)
    (tid : String) (tname : Option String) (tok sc : String)
    (auid : Option String) (now : Nat)
    (h : conns.countP (pairMatch uid tid) ≤ 1) :
    ∀ c ∈ upsertConnection conns uid tid tname tok sc auid now,
      pairMatch uid tid c = true →
        c.status = "active" ∧ c.bot_access_token = some tok := by
  induction conns with
  | nil =>
    intro c hc _
    simp [upsertConnection] at hc
    subst hc
    exact ⟨rfl, rfl⟩
  | cons a rest ih =>
    by_cases hm : pairMatch uid tid a = true
    · have hrest : rest.countP (pairMatch uid tid) = 0 := by
        rw [List.countP_cons, if_pos hm] at h
        omega
      intro c hc hp
      simp only [upsertConnection, if_pos hm] at hc
      rcases List.mem_cons.mp hc with hc | hc
      · subst hc
        exact ⟨rfl, rfl⟩
      · exact absurd hp (by
          have := List.countP_eq_zero.mp hrest c hc
          simpa using this)
    · have hrest : rest.countP (pairMatch uid tid) ≤ 1 := by
        rw [List.countP_cons, if_neg hm] at h
        omega
      intro c hc hp
      simp only [upsertConnection, if_neg hm] at hc
      rcases List.mem_cons.mp hc with hc | hc
      · subst hc
        exact absurd hp (by simpa using hm)
      · exact ih hrest c hc hp

theorem upsert_length_of_present (conns : List SlackConnection) (uid : Nat)
    (tid : String) (tname : Option String) (tok sc : String)
    (auid : Option String) (now : Nat)
    (h : 0 < conns.countP (pairMatch uid tid)) :
    (upsertConnection conns uid tid tname tok sc auid now).length
      = conns.length := by
  induction conns with
  | nil => simp at h
  | cons c rest ih =>
    by_cases hm : pairMatch uid tid c = true
    · simp [upsertConnection, if_pos hm]
    · have h2 : 0 < rest.countP (pairMatch uid tid) := by
        rw [List.countP_cons, if_neg hm] at h
        omega
      simp [upsertConnection, if_neg hm, ih h2]

theorem upsert_length_of_absent (conns : List SlackConnection) (uid : Nat)
    (tid : String) (tname : Option String) (tok sc : String)
    (auid : Option String) (now : Nat)
    (h : conns.countP (pairMatch uid tid) = 0) :
    (upsertConnection conns uid tid tname tok sc auid now).length
      = conns.length + 1 := by
  induction conns with
  | nil => simp [upsertConnection]
  | cons c rest ih =>
    have hm : ¬ pairMatch uid tid c = true := by
      have := List.countP_eq_zero.mp h c (List.mem_cons_self c rest)
      simpa using this
    have h2 : rest.countP (pairMatch uid tid) = 0 := by
      rw [List.countP_cons, if_neg hm] at h
      simpa using h
    simp [upsertConnection, if_neg hm, ih h2]

theorem countP_upsert_other (conns : List SlackConnection) (uid : Nat)
    (tid : String) (tname : Option String) (tok sc : String)
    (auid : Option String) (now : Nat) (uid2 : Nat) (tid2 : String)
    (hne : uid2 ≠ uid ∨ tid2 ≠ tid) :
    (upsertConnection conns uid tid tname tok sc auid now).countP
        (pairMatch uid2 tid2)
      = conns.countP (pairMatch uid2 tid2) := by
  have hnew : pairMatch uid2 tid2 (newConnection uid tid tname tok sc auid now)
      = false := by
    rcases hne with hne | hne <;>
      simp [pairMatch, newConnection, Ne.symm hne]
  induction conns with
  | nil => simp [upsertConnection, List.countP_cons, hnew]
  | cons c rest ih =>
    by_cases hm : pairMatch uid tid c = true
    · have hupd : pairMatch uid2 tid2 (updateConnection c tname tok sc auid now)
          = pairMatch uid2 tid2 c := rfl
      simp [upsertConnection, if_pos hm, List.countP_cons, hupd]
    · simp [upsertConnection, if_neg hm, List.countP_cons, ih]

theorem wsHandleMessage_toolsCall (user_id : Nat)
    (session_token : Option String) (conns : List SlackConnection)
    (outcome : SlackOutcome) (msg : RpcMessage)
    (h : msg.method = some "tools/call") :
    wsHandleMessage user_id session_token conns outcome msg
      = wsToolsCall user_id session_token conns outcome msg.id msg.name
          msg.arguments := by
  unfold wsHandleMessage
  rw [h]
  rfl

theorem wsHandleMessage_toolsCallLegacy (user_id : Nat)
    (session_token : Option String) (conns : List SlackConnection)
    (outcome : SlackOutcome) (msg : RpcMessage)
    (h : msg.method = some "tools.call") :
    wsHandleMessage user_id session_token conns outcome msg
      = wsToolsCallLegacy user_id conns outcome msg.id msg.name
          msg.arguments := by
  unfold wsHandleMessage
  rw [h]
  rfl

theorem wsToolsCall_emits_one (user_id : Nat) (session_token : Option String)
    (conns : List SlackConnection) (outcome : SlackOutcome)
    (msg_id : Option String) (tool_name : Option String) (args : ToolArgs) :
    (wsToolsCall user_id session_token conns outcome msg_id
        tool_name args).frames.length = 1 := by
  unfold wsToolsCall
  cases outcome <;> split_ifs <;> rfl

/-! ### Claims -/

/-- C1 (amended): over the websocket transport's `tools/call` method, a
tool invocation by an authenticated identity with no active Credential
(no `SlackConnection` row with `status == "active"` and a non-empty bot
access token) produces exactly one frame: a protocol-level result — not a
JSON-RPC error object — whose payload text carries a fresh link-start URL
for the caller's session token, and no exception escapes the handler.
As stated over every invocation path the original claim is false: the
legacy `tools.call` method answers the same situation with a JSON-RPC
error object carrying no URL (see the counterexample), and the SDK
`call_tool` path returns a result without a URL. -/
theorem C1_ws_tools_call_not_linked (user_id : Nat)
    (session_token : Option String) (conns : List SlackConnection)
    (outcome : SlackOutcome) (msg : RpcMessage)
    (hm : msg.method = some "tools/call")
    (hno : hasActiveCredential conns user_id = false) :
    wsHandleMessage user_id session_token conns outcome msg
      = ⟨[.res msg.id (.toolResult
          ["Slack not connected. Please connect Slack first: "
            ++ connect_url_for_user (pyOrEmpty session_token)] true)], false⟩
    ∧ (wsHandleMessage user_id session_token conns outcome msg).frames.all
        (fun f => !f.isJsonRpcError) = true := by
  have hc : connMissingToken (pickActive conns user_id) = true :=
    connMissingToken_of_no_active hno
  have hmain : wsHandleMessage user_id session_token conns outcome msg
      = ⟨[.res msg.id (.toolResult
          ["Slack not connected. Please connect Slack first: "
            ++ connect_url_for_user (pyOrEmpty session_token)] true)], false⟩ := by
    rw [wsHandleMessage_toolsCall user_id session_token conns outcome msg hm]
    unfold wsToolsCall
    simp [hc]
  exact ⟨hmain, by rw [hmain]; rfl⟩

/-- Store fixture for the C1 witness: the identity's only connection row
is revoked, so no active Credential exists. -/
def C1_conns : List SlackConnection :=
  [{ user_id := 7, slack_team_id := "T1", slack_team_name := none,
     bot_access_token := some "xoxb-1", scope := none,
     authed_user_id := none, status := "revoked",
     installed_at := 1, updated_at := 1 }]

/-- Message fixture for the C1 witness. -/
def C1_msg : RpcMessage :=
  { id := some "5", method := some "tools/call", name := some "send_message" }

theorem C1_ws_tools_call_not_linked_witness :
    C1_msg.method = some "tools/call"
    ∧ hasActiveCredential C1_conns 7 = false
    ∧ (wsHandleMessage 7 (some "sess") C1_conns (.resp {}) C1_msg
        = ⟨[.res C1_msg.id (.toolResult
            ["Slack not connected. Please connect Slack first: "
              ++ connect_url_for_user (pyOrEmpty (some "sess"))] true)], false⟩
      ∧ (wsHandleMessage 7 (some "sess") C1_conns (.resp {}) C1_msg).frames.all
          (fun f => !f.isJsonRpcError) = true) :=
  ⟨rfl, by decide,
   C1_ws_tools_call_not_linked 7 (some "sess") C1_conns (.resp {}) C1_msg
     rfl (by decide)⟩

/-- C1 counterexample: a `tools.call` invocation (the legacy dot-notation
method, `websocket_server.py:325-334`) by identity 7, which has no
connection rows at all, is answered with a JSON-RPC error object
`{"code": -32000, "message": "Slack not connected."}` — not with a
non-error result, and with no link-start URL in the payload. -/
theorem C1_counterexample :
    (wsHandleMessage 7 (some "sess") [] (.resp {})
        { id := some "1", method := some "tools.call",
          name := some "list_channels" }).frames
      = [.err (some "1") (-32000) "Slack not connected."]
    ∧ ((wsHandleMessage 7 (some "sess") [] (.resp {})
        { id := some "1", method := some "tools.call",
          name := some "list_channels" }).frames.map Frame.isJsonRpcError)
      = [true] :=
  ⟨rfl, rfl⟩

/-- C2 (amended): the engine never inspects the `id` field; whether a
message receives a response is decided by the method alone.  Concretely:
(a) a message whose method is `initialized` or `notifications/initialized`
is consumed silently with no output frame, whatever its `id`; (b) a
message with any other method except the legacy `tools.call` always
receives exactly one output frame, whatever its `id` (a missing `id` is
echoed back as null); and (c) a legacy `tools.call` message can also be
silent — with an active Credential (in a store whose active rows carry
tokens) and a tool name that is neither `list_channels` nor
`send_message`, the branch falls through with no frame at all
(`websocket_server.py:362-382`). -/
theorem C2_id_ignored (user_id : Nat) (session_token : Option String)
    (conns : List SlackConnection) (outcome : SlackOutcome)
    (msg : RpcMessage) (n : String) :
    ((msg.method = some "initialized"
        ∨ msg.method = some "notifications/initialized") →
      wsHandleMessage user_id session_token conns outcome msg = ⟨[], false⟩)
    ∧ (msg.method ≠ some "initialized" →
        msg.method ≠ some "notifications/initialized" →
        msg.method ≠ some "tools.call" →
        (wsHandleMessage user_id session_token conns outcome msg).frames.length
          = 1)
    ∧ (msg.method = some "tools.call" → msg.name = some n →
        n ≠ "list_channels" → n ≠ "send_message" →
        hasActiveCredential conns user_id = true →
        activeTokensOk conns = true →
        wsHandleMessage user_id session_token conns outcome msg
          = ⟨[], false⟩) := by
  refine ⟨?_, ?_, ?_⟩
  · intro h
    rcases h with h | h
    · unfold wsHandleMessage
      rw [h]
      rfl
    · unfold wsHandleMessage
      rw [h]
      rfl
  · intro hne1 hne2 hne3
    have e1 : (msg.method == some "initialized") = false := by
      simp [hne1]
    have e2 : (msg.method == some "notifications/initialized") = false := by
      simp [hne2]
    have e3 : (msg.method == some "tools.call") = false := by
      simp [hne3]
    unfold wsHandleMessage
    by_cases h1 : (msg.method == some "initialize") = true
    · rw [if_pos h1]
      rfl
    · rw [if_neg h1, e2, e1]
      simp only [Bool.or_self, Bool.false_eq_true, if_false]
      by_cases h3 : (msg.method == some "tools/list") = true
      · rw [if_pos h3]
        rfl
      · rw [if_neg h3]
        by_cases h4 : (msg.method == some "tools/call") = true
        · rw [if_pos h4]
          exact wsToolsCall_emits_one user_id session_token conns outcome
            msg.id msg.name msg.arguments
        · rw [if_neg h4]
          by_cases h5 : (msg.method == some "tools.list") = true
          · rw [if_pos h5]
            rfl
          · rw [if_neg h5, e3]
            simp only [Bool.false_eq_true, if_false]
            rfl
  · intro hm hname hn1 hn2 hact hinv
    rw [wsHandleMessage_toolsCallLegacy user_id session_token conns outcome
      msg hm]
    obtain ⟨c, hc, htok⟩ := pickActive_active_token hact hinv
    have hmiss : connMissingToken (pickActive conns user_id) = false := by
      rw [hc]
      simpa [connMissingToken] using htok
    unfold wsToolsCallLegacy
    rw [hname]
    have e1 : ((some n == some "list_channels") : Bool) = false := by
      simp [hn1]
    have e2 : ((some n == some "send_message") : Bool) = false := by
      simp [hn2]
    simp [hmiss, e1, e2]

/-- Store fixture for the C2 witness: one active connection with a
token, for the silent legacy `tools.call` conjunct. -/
def C2_conns : List SlackConnection :=
  [{ user_id := 1, slack_team_id := "T1", slack_team_name := none,
     bot_access_token := some "xoxb-1", scope := none,
     authed_user_id := none, status := "active",
     installed_at := 3, updated_at := 3 }]

theorem C2_id_ignored_witness :
    wsHandleMessage 1 none [] (.resp {}) { method := some "initialized" }
        = ⟨[], false⟩
    ∧ (wsHandleMessage 1 none [] (.resp {})
        { id := none, method := some "initialize" }).frames.length = 1
    ∧ wsHandleMessage 1 (some "sess") C2_conns (.resp {})
        { id := none, method := some "tools.call", name := some "bogus" }
      = ⟨[], false⟩ :=
  ⟨(C2_id_ignored 1 none [] (.resp {}) { method := some "initialized" }
      "x").1 (Or.inl rfl),
   (C2_id_ignored 1 none [] (.resp {})
      { id := none, method := some "initialize" } "x").2.1
     (by decide) (by decide) (by decide),
   (C2_id_ignored 1 (some "sess") C2_conns (.resp {})
      { id := none, method := some "tools.call", name := some "bogus" }
      "bogus").2.2
     rfl rfl (by decide) (by decide) (by decide) (by decide)⟩

/-- C2 counterexample: three messages that all lack an `id` field and
nevertheless produce an output frame — an `initialize` request is
answered, a `tools/list` request is answered, and an unrecognized method
is answered with a `MethodNotFound`-style error frame.  The loop at
`websocket_server.py:85-114` never tests for the presence of `id`. -/
theorem C2_counterexample :
    (wsHandleMessage 1 none [] (.resp {}) { method := some "initialize" }).frames
      = [.res none .initResult]
    ∧ (wsHandleMessage 1 none [] (.resp {}) { method := some "tools/list" }).frames
      = [.res none (.toolsListing TOOLS_names)]
    ∧ (wsHandleMessage 1 none [] (.resp {})
        { method := some "does-not-exist" }).frames
      = [.err none (-32601) "Unknown method: does-not-exist"] :=
  ⟨rfl, rfl, rfl⟩

/-- C3: on a valid, unused, unexpired LinkState, a callback carrying a
provider `error` parameter fails with the provider-denied 400, persists
`used = true` on that LinkState, and any later callback with the same
state token (whatever its code, error, exchange response, or clock)
fails with the state-already-used 400 and changes nothing — the denied
state cannot be replayed. -/
theorem C3_denial_consumes_state (db : DB) (now now2 : Nat)
    (code code2 error2 : Option String) (stok e : String)
    (ex ex2 : TokenExchangeResponse) (st : OAuthState)
    (hs : stok ≠ "") (he : e ≠ "")
    (hfind : db.oauth_states.find? (stateMatches stok) = some st)
    (hused : st.used = false)
    (hexp : ¬ st.expires_at < now) :
    (slack_oauth_callback db now code (some stok) (some e) ex).1
        = .httpError 400 ("OAuth error: " ++ e)
    ∧ (slack_oauth_callback db now code (some stok) (some e) ex).2.oauth_states.find?
        (stateMatches stok) = some { st with used := true }
    ∧ slack_oauth_callback
        (slack_oauth_callback db now code (some stok) (some e) ex).2
        now2 code2 (some stok) error2 ex2
      = (.httpError 400 "State already used",
         (slack_oauth_callback db now code (some stok) (some e) ex).2) := by
  have hmain : slack_oauth_callback db now code (some stok) (some e) ex
      = (.httpError 400 ("OAuth error: " ++ e),
         { db with oauth_states := setUsedFirst db.oauth_states stok }) := by
    rw [callback_valid_state db now code (some e) stok ex st hs hfind hused hexp]
    simp [pyFalsyOptStr, he]
  refine ⟨by rw [hmain], ?_, ?_⟩
  · rw [hmain]
    exact find?_setUsedFirst hfind
  · rw [hmain]
    exact callback_used_state _ now2 code2 error2 stok ex2
      { st with used := true } hs (find?_setUsedFirst hfind) rfl

/-- LinkState fixture for the C3 witness. -/
def C3_state : OAuthState :=
  { provider := "slack", state := "s3", user_id := 4, used := false,
    created_at := 0, expires_at := 600 }

theorem C3_denial_consumes_state_witness :
    ("s3" ≠ "" ∧ "access_denied" ≠ ""
      ∧ (DB.mk [C3_state] []).oauth_states.find? (stateMatches "s3")
          = some C3_state
      ∧ C3_state.used = false
      ∧ ¬ C3_state.expires_at < 30)
    ∧ ((slack_oauth_callback ⟨[C3_state], []⟩ 30 (some "c") (some "s3")
          (some "access_denied") {}).1
        = .httpError 400 ("OAuth error: " ++ "access_denied")
      ∧ (slack_oauth_callback ⟨[C3_state], []⟩ 30 (some "c") (some "s3")
          (some "access_denied") {}).2.oauth_states.find? (stateMatches "s3")
        = some { C3_state with used := true }
      ∧ slack_oauth_callback
          (slack_oauth_callback ⟨[C3_state], []⟩ 30 (some "c") (some "s3")
            (some "access_denied") {}).2
          31 (some "c") (some "s3") none {}
        = (.httpError 400 "State already used",
           (slack_oauth_callback ⟨[C3_state], []⟩ 30 (some "c") (some "s3")
             (some "access_denied") {}).2)) :=
  ⟨⟨by decide, by decide, by decide, by decide, by decide⟩,
   C3_denial_consumes_state ⟨[C3_state], []⟩ 30 31 (some "c") (some "c") none
     "s3" "access_denied" {} {} C3_state (by decide) (by decide) (by decide)
     (by decide) (by decide)⟩

/-- C4: on a valid, unused, unexpired LinkState with a code present, a
token exchange the provider reports as not ok (`ok = false`) fails with
the 400 whose detail carries the provider's error reason, and the
database is returned unchanged: the LinkState keeps `used = false` and no
Credential row is created or modified (the source raises before any
`db.commit()` on this path). -/
theorem C4_exchange_failed_state_unchanged (db : DB) (now : Nat)
    (code : Option String) (stok reason : String)
    (ex : TokenExchangeResponse) (st : OAuthState)
    (hs : stok ≠ "")
    (hfind : db.oauth_states.find? (stateMatches stok) = some st)
    (hused : st.used = false)
    (hexp : ¬ st.expires_at < now)
    (hcode : pyFalsyOptStr code = false)
    (hok : ex.ok = false)
    (hreason : ex.error = some reason) :
    slack_oauth_callback db now code (some stok) none ex
      = (.httpError 400 ("Slack OAuth token exchange failed: " ++ reason), db) := by
  rw [callback_valid_state db now code none stok ex st hs hfind hused hexp]
  simp [show pyFalsyOptStr (none : Option String) = true from rfl,
        hcode, hok, hreason]

/-- LinkState fixture for the C4 witness. -/
def C4_state : OAuthState :=
  { provider := "slack", state := "s4", user_id := 5, used := false,
    created_at := 0, expires_at := 600 }

theorem C4_exchange_failed_state_unchanged_witness :
    ("s4" ≠ ""
      ∧ (DB.mk [C4_state] []).oauth_states.find? (stateMatches "s4")
          = some C4_state
      ∧ C4_state.used = false
      ∧ ¬ C4_state.expires_at < 30
      ∧ pyFalsyOptStr (some "badcode") = false
      ∧ ({ ok := false, error := some "invalid_code" }
            : TokenExchangeResponse).ok = false
      ∧ ({ ok := false, error := some "invalid_code" }
            : TokenExchangeResponse).error = some "invalid_code")
    ∧ slack_oauth_callback ⟨[C4_state], []⟩ 30 (some "badcode") (some "s4") none
        { ok := false, error := some "invalid_code" }
      = (.httpError 400 ("Slack OAuth token exchange failed: " ++ "invalid_code"),
         ⟨[C4_state], []⟩) :=
  ⟨⟨by decide, by decide, by decide, by decide, by decide, by decide, by decide⟩,
   C4_exchange_failed_state_unchanged ⟨[C4_state], []⟩ 30 (some "badcode")
     "s4" "invalid_code" { ok := false, error := some "invalid_code" } C4_state
     (by decide) (by decide) (by decide) (by decide) (by decide) (by decide)
     (by decide)⟩

/-- C5: on a valid, unused, unexpired LinkState with a code present and a
complete, successful exchange, `complete_link` succeeds, the LinkState is
persisted with `used = true`, and any second callback with the same state
token (whatever its code, error, exchange response, or clock) fails with
the state-already-used 400 and changes nothing: success happens at most
once per token. -/
theorem C5_success_at_most_once (db : DB) (now now2 : Nat)
    (code code2 error2 : Option String) (stok : String)
    (ex ex2 : TokenExchangeResponse) (st : OAuthState)
    (hs : stok ≠ "")
    (hfind : db.oauth_states.find? (stateMatches stok) = some st)
    (hused : st.used = false)
    (hexp : ¬ st.expires_at < now)
    (hcode : pyFalsyOptStr code = false)
    (hok : ex.ok = true)
    (hat : pyFalsyOptStr ex.access_token = false)
    (htid : pyFalsyOptStr ex.team_id = false) :
    (slack_oauth_callback db now code (some stok) none ex).1
        = .success "Slack connected successfully"
    ∧ (slack_oauth_callback db now code (some stok) none ex).2.oauth_states.find?
        (stateMatches stok) = some { st with used := true }
    ∧ slack_oauth_callback
        (slack_oauth_callback db now code (some stok) none ex).2
        now2 code2 (some stok) error2 ex2
      = (.httpError 400 "State already used",
         (slack_oauth_callback db now code (some stok) none ex).2) := by
  have hmain : slack_oauth_callback db now code (some stok) none ex
      = (.success "Slack connected successfully",
         { oauth_states := setUsedFirst db.oauth_states stok
           slack_connections :=
             upsertConnection db.slack_connections st.user_id
               (ex.team_id.getD "") ex.team_name (ex.access_token.getD "")
               (ex.scope.getD "") ex.authed_user_id now }) := by
    rw [callback_valid_state db now code none stok ex st hs hfind hused hexp]
    simp [show pyFalsyOptStr (none : Option String) = true from rfl,
          hcode, hok, hat, htid]
  refine ⟨by rw [hmain], ?_, ?_⟩
  · rw [hmain]
    exact find?_setUsedFirst hfind
  · rw [hmain]
    exact callback_used_state _ now2 code2 error2 stok ex2
      { st with used := true } hs (find?_setUsedFirst hfind) rfl

/-- LinkState fixture for the C5 witness. -/
def C5_state : OAuthState :=
  { provider := "slack", state := "s5", user_id := 6, used := false,
    created_at := 0, expires_at := 600 }

/-- Exchange-response fixture for the C5 witness. -/
def C5_ex : TokenExchangeResponse :=
  { ok := true, access_token := some "xoxb-5", scope := some "chat:write",
    team_id := some "T5", team_name := some "Team5",
    authed_user_id := some "U5" }

theorem C5_success_at_most_once_witness :
    ("s5" ≠ ""
      ∧ (DB.mk [C5_state] []).oauth_states.find? (stateMatches "s5")
          = some C5_state
      ∧ C5_state.used = false
      ∧ ¬ C5_state.expires_at < 30
      ∧ pyFalsyOptStr (some "goodcode") = false
      ∧ C5_ex.ok = true
      ∧ pyFalsyOptStr C5_ex.access_token = false
      ∧ pyFalsyOptStr C5_ex.team_id = false)
    ∧ ((slack_oauth_callback ⟨[C5_state], []⟩ 30 (some "goodcode") (some "s5")
          none C5_ex).1 = .success "Slack connected successfully"
      ∧ (slack_oauth_callback ⟨[C5_state], []⟩ 30 (some "goodcode") (some "s5")
          none C5_ex).2.oauth_states.find? (stateMatches "s5")
        = some { C5_state with used := true }
      ∧ slack_oauth_callback
          (slack_oauth_callback ⟨[C5_state], []⟩ 30 (some "goodcode")
            (some "s5") none C5_ex).2
          31 (some "goodcode") (some "s5") none C5_ex
        = (.httpError 400 "State already used",
           (slack_oauth_callback ⟨[C5_state], []⟩ 30 (some "goodcode")
             (some "s5") none C5_ex).2)) :=
  ⟨⟨by decide, by decide, by decide, by decide, by decide, by decide,
    by decide, by decide⟩,
   C5_success_at_most_once ⟨[C5_state], []⟩ 30 31 (some "goodcode")
     (some "goodcode") none "s5" C5_ex C5_ex C5_state (by decide) (by decide)
     (by decide) (by decide) (by decide) (by decide) (by decide) (by decide)⟩

/-- C6 (amended): for every *unused* LinkState token past `expires_at`,
`complete_link` fails with the state-expired 400 regardless of the code,
the error parameter, or the exchange response, and the database is
unchanged.  The original claim ("regardless of the other fields of the
state") is false: the `used` check at `app/oauth/slack.py:109` precedes
the expiry check at line 112, so a state that is both used and expired
fails with the state-already-used 400 instead — see the counterexample. -/
theorem C6_expired_unused (db : DB) (now : Nat)
    (code error : Option String) (stok : String)
    (ex : TokenExchangeResponse) (st : OAuthState)
    (hs : stok ≠ "")
    (hfind : db.oauth_states.find? (stateMatches stok) = some st)
    (hused : st.used = false)
    (hexp : st.expires_at < now) :
    slack_oauth_callback db now code (some stok) error ex
      = (.httpError 400 "State expired", db) := by
  unfold slack_oauth_callback
  have h1 : pyFalsyOptStr (some stok) = false := by
    simp [pyFalsyOptStr, hs]
  rw [h1]
  simp only [Bool.false_eq_true, if_false, Option.getD_some]
  rw [hfind]
  simp only [hused, Bool.false_eq_true, if_false, if_pos hexp]

/-- LinkState fixture for the C6 witness: unused but expired. -/
def C6_state : OAuthState :=
  { provider := "slack", state := "s6", user_id := 2, used := false,
    created_at := 0, expires_at := 10 }

theorem C6_expired_unused_witness :
    ("s6" ≠ ""
      ∧ (DB.mk [C6_state] []).oauth_states.find? (stateMatches "s6")
          = some C6_state
      ∧ C6_state.used = false
      ∧ C6_state.expires_at < 99)
    ∧ slack_oauth_callback ⟨[C6_state], []⟩ 99 (some "validcode") (some "s6")
        none { ok := true }
      = (.httpError 400 "State expired", ⟨[C6_state], []⟩) :=
  ⟨⟨by decide, by decide, by decide, by decide⟩,
   C6_expired_unused ⟨[C6_state], []⟩ 99 (some "validcode") none "s6"
     { ok := true } C6_state (by decide) (by decide) (by decide) (by decide)⟩

/-- LinkState fixture for the C6 counterexample: both used and expired. -/
def C6_used_state : OAuthState :=
  { provider := "slack", state := "s6u", user_id := 2, used := true,
    created_at := 0, expires_at := 10 }

/-- C6 counterexample: a LinkState whose `expires_at` (10) is in the past
(now = 99) but which is also marked used fails with the
state-already-used 400, not with the state-expired 400, because the
`used` check runs first — refuting "fails with StateExpired ... regardless
of the other fields of the state" at this concrete input. -/
theorem C6_counterexample :
    (slack_oauth_callback ⟨[C6_used_state], []⟩ 99 (some "validcode")
        (some "s6u") none { ok := true }).1
      = .httpError 400 "State already used"
    ∧ (slack_oauth_callback ⟨[C6_used_state], []⟩ 99 (some "validcode")
        (some "s6u") none { ok := true }).1
      ≠ .httpError 400 "State expired" :=
  ⟨rfl, by decide⟩

/-- LinkState fixture for C7. -/
def C7_state : OAuthState :=
  { provider := "slack", state := "s7", user_id := 3, used := false,
    created_at := 0, expires_at := 100 }

/-- C7 (code bug): on a valid, unused, unexpired LinkState with a code
present, when the exchange reports `ok = true` but the access token is
missing (here: absent from the response, `team.id` present), the callback
reaches `app/oauth/slack.py:159-162`, which constructs
`HTTPException(status_code = 400, details = "Missing required fields from
Slack response")`.  `HTTPException.__init__` has no parameter named
`details` (it is `detail`), so this raises `TypeError` — an unhandled
crash (HTTP 500), not the handled 4xx `IncompleteProviderResponse`
failure the claim describes.  This theorem evaluates the embedded
callback at that failing input. -/
theorem C7_incomplete_response_type_error :
    slack_oauth_callback ⟨[C7_state], []⟩ 50 (some "authcode") (some "s7")
        none { ok := true, team_id := some "T1" }
      = (.typeError, ⟨[C7_state], []⟩) := rfl

/-- C8: for every requested limit `r`, the limit an MCP `fetch_history`
invocation sends to the provider is exactly `min r 100`: it is 100
whenever more than 100 is requested and exactly `r` whenever `r ≤ 100`;
the bare `SlackClient.fetch_history` request limit obeys the same
equation.  (`server.py:193` clamps with `min(..., 100)` and
`client.py:130` clamps the received value again.) -/
theorem C8_fetch_history_clamp (r : Int) :
    mcp_fetch_history_provider_limit { limit := some r } = min r 100
    ∧ (100 < r → mcp_fetch_history_provider_limit { limit := some r } = 100)
    ∧ (r ≤ 100 → mcp_fetch_history_provider_limit { limit := some r } = r)
    ∧ fetch_history_request_limit r = min r 100 := by
  unfold mcp_fetch_history_provider_limit handle_fetch_history_limit
    fetch_history_request_limit
  simp only [Option.getD_some]
  refine ⟨?_, ?_, ?_, trivial⟩
  · omega
  · intro h
    omega
  · intro h
    omega

theorem C8_fetch_history_clamp_witness :
    (100 < (500 : Int)
      ∧ mcp_fetch_history_provider_limit { limit := some 500 } = 100)
    ∧ ((7 : Int) ≤ 100
      ∧ mcp_fetch_history_provider_limit { limit := some 7 } = 7) :=
  ⟨⟨by decide, (C8_fetch_history_clamp 500).2.1 (by decide)⟩,
   ⟨by decide, (C8_fetch_history_clamp 7).2.2.1 (by decide)⟩⟩

/-- C9: upserting the Credential for `(identity, team)` preserves
uniqueness of the pair: starting from a store with at most one row for
the pair (the model of the unique-by-(owner, external_team_id)
invariant), afterwards exactly one row for the pair exists; every row for
the pair carries `status = "active"` and the new token; if a row existed
it was updated in place (the row count is unchanged), otherwise exactly
one row was inserted; and the row count of every other pair is
untouched. -/
theorem C9_upsert_unique (conns : List SlackConnection) (uid : Nat)
    (tid : String) (tname : Option String) (tok sc : String)
    (auid : Option String) (now : Nat)
    (h : conns.countP (pairMatch uid tid) ≤ 1) :
    (upsertConnection conns uid tid tname tok sc auid now).countP
        (pairMatch uid tid) = 1
    ∧ (∀ c ∈ upsertConnection conns uid tid tname tok sc auid now,
        pairMatch uid tid c = true →
          c.status = "active" ∧ c.bot_access_token = some tok)
    ∧ (0 < conns.countP (pairMatch uid tid) →
        (upsertConnection conns uid tid tname tok sc auid now).length
          = conns.length)
    ∧ (conns.countP (pairMatch uid tid) = 0 →
        (upsertConnection conns uid tid tname tok sc auid now).length
          = conns.length + 1)
    ∧ (∀ uid2 tid2, uid2 ≠ uid ∨ tid2 ≠ tid →
        (upsertConnection conns uid tid tname tok sc auid now).countP
            (pairMatch uid2 tid2)
          = conns.countP (pairMatch uid2 tid2)) :=
  ⟨countP_upsert_eq_one conns uid tid tname tok sc auid now h,
   upsert_pair_active conns uid tid tname tok sc auid now h,
   fun hp => upsert_length_of_present conns uid tid tname tok sc auid now hp,
   fun ha => upsert_length_of_absent conns uid tid tname tok sc auid now ha,
   fun uid2 tid2 hne =>
     countP_upsert_other conns uid tid tname tok sc auid now uid2 tid2 hne⟩

/-- Store fixture for the C9 witness: one existing row for the pair
`(1, "T1")` (with an old token) and one row for a different team. -/
def C9_conns : List SlackConnection :=
  [{ user_id := 1, slack_team_id := "T1", slack_team_name := some "Old",
     bot_access_token := some "xoxb-old", scope := some "chat:write",
     authed_user_id := some "U1", status := "active",
     installed_at := 1, updated_at := 1 },
   { user_id := 1, slack_team_id := "T2", slack_team_name := some "Other",
     bot_access_token := some "xoxb-2", scope := none,
     authed_user_id := none, status := "active",
     installed_at := 2, updated_at := 2 }]

theorem C9_upsert_unique_witness :
    C9_conns.countP (pairMatch 1 "T1") ≤ 1
    ∧ ((upsertConnection C9_conns 1 "T1" (some "New") "xoxb-new" "chat:write"
          (some "U1") 9).countP (pairMatch 1 "T1") = 1
      ∧ (∀ c ∈ upsertConnection C9_conns 1 "T1" (some "New") "xoxb-new"
            "chat:write" (some "U1") 9,
          pairMatch 1 "T1" c = true →
            c.status = "active" ∧ c.bot_access_token = some "xoxb-new")
      ∧ (0 < C9_conns.countP (pairMatch 1 "T1") →
          (upsertConnection C9_conns 1 "T1" (some "New") "xoxb-new"
            "chat:write" (some "U1") 9).length = C9_conns.length)
      ∧ (C9_conns.countP (pairMatch 1 "T1") = 0 →
          (upsertConnection C9_conns 1 "T1" (some "New") "xoxb-new"
            "chat:write" (some "U1") 9).length = C9_conns.length + 1)
      ∧ (∀ uid2 tid2, uid2 ≠ 1 ∨ tid2 ≠ "T1" →
          (upsertConnection C9_conns 1 "T1" (some "New") "xoxb-new"
              "chat:write" (some "U1") 9).countP (pairMatch uid2 tid2)
            = C9_conns.countP (pairMatch uid2 tid2))) :=
  ⟨by decide,
   C9_upsert_unique C9_conns 1 "T1" (some "New") "xoxb-new" "chat:write"
     (some "U1") 9 (by decide)⟩

/-- C10: a `tools/call` invocation over the websocket whose tool name is
not in the `TOOLS` catalog, by an identity holding an active Credential
(in a store whose active rows all carry tokens, as every row the callback
writes does), is answered with exactly one in-band tool result marked
`isError` whose text names the unknown tool; no JSON-RPC
`MethodNotFound`-style error object is emitted and no exception escapes
the handler (the loop continues, so the connection stays open). -/
theorem C10_unknown_tool_in_band (user_id : Nat)
    (session_token : Option String) (conns : List SlackConnection)
    (outcome : SlackOutcome) (msg : RpcMessage) (n : String)
    (hm : msg.method = some "tools/call")
    (hname : msg.name = some n)
    (hn : n ∉ TOOLS_names)
    (hact : hasActiveCredential conns user_id = true)
    (hinv : activeTokensOk conns = true) :
    wsHandleMessage user_id session_token conns outcome msg
      = ⟨[.res msg.id (.toolResult ["Unknown tool: " ++ n] true)], false⟩
    ∧ (wsHandleMessage user_id session_token conns outcome msg).frames.all
        (fun f => !f.isJsonRpcError) = true := by
  have hn1 : n ≠ "list_channels" := by
    intro hEq
    exact hn (by rw [hEq]; simp [TOOLS_names])
  have hn2 : n ≠ "send_message" := by
    intro hEq
    exact hn (by rw [hEq]; simp [TOOLS_names])
  obtain ⟨c, hc, htok⟩ := pickActive_active_token hact hinv
  have hmiss : connMissingToken (pickActive conns user_id) = false := by
    rw [hc]
    simpa [connMissingToken] using htok
  have e1 : ((some n == some "list_channels") : Bool) = false := by
    simp [hn1]
  have e2 : ((some n == some "send_message") : Bool) = false := by
    simp [hn2]
  have hmain : wsHandleMessage user_id session_token conns outcome msg
      = ⟨[.res msg.id (.toolResult ["Unknown tool: " ++ n] true)], false⟩ := by
    rw [wsHandleMessage_toolsCall user_id session_token conns outcome msg hm]
    unfold wsToolsCall
    rw [hname]
    simp [hmiss, e1, e2, pyStr]
  exact ⟨hmain, by rw [hmain]; rfl⟩

/-- Store fixture for the C10 witness: one active connection with a
token. -/
def C10_conns : List SlackConnection :=
  [{ user_id := 1, slack_team_id := "T1", slack_team_name := none,
     bot_access_token := some "xoxb-1", scope := none,
     authed_user_id := none, status := "active",
     installed_at := 5, updated_at := 5 }]

/-- Message fixture for the C10 witness: `fetch_history` is not in the
websocket catalog. -/
def C10_msg : RpcMessage :=
  { id := some "9", method := some "tools/call", name := some "fetch_history" }

theorem C10_unknown_tool_in_band_witness :
    (C10_msg.method = some "tools/call"
      ∧ C10_msg.name = some "fetch_history"
      ∧ "fetch_history" ∉ TOOLS_names
      ∧ hasActiveCredential C10_conns 1 = true
      ∧ activeTokensOk C10_conns = true)
    ∧ (wsHandleMessage 1 (some "sess") C10_conns (.resp {}) C10_msg
        = ⟨[.res C10_msg.id
            (.toolResult ["Unknown tool: " ++ "fetch_history"] true)], false⟩
      ∧ (wsHandleMessage 1 (some "sess") C10_conns (.resp {}) C10_msg).frames.all
          (fun f => !f.isJsonRpcError) = true) :=
  ⟨⟨rfl, rfl, by decide, by decide, by decide⟩,
   C10_unknown_tool_in_band 1 (some "sess") C10_conns (.resp {}) C10_msg
     "fetch_history" rfl rfl (by decide) (by decide) (by decide)⟩
